import Mathlib

/-!
Verification development for `PENVCreator.py`, an interactive command-line
helper that creates a Python virtual environment and drives `pip` through
subprocesses.

The program is shallowly embedded as pure functions over oracle inputs:
subprocess results (`SubResult`), the stdin script, and the filesystem are
inputs; each operation produces a list of observable `Event`s (log lines,
subprocess invocations, prompts, progress-bar updates) together with an
optional uncaught Python exception.  The Python string operations used by the
program (`strip`, `split`, `startswith`, substring tests, and the single
regular expression `Collecting (\S+)`) are modelled character-exactly on
`List Char`.
-/

namespace PENV

/-- Whitespace test for one character, as used by Python `str.strip` and
`str.split()` (ASCII fragment; the program only meets ASCII subprocess
output). -/
def isWs (c : Char) : Bool := c.isWhitespace

/-- Python `s.strip()` on the character list: drop whitespace from both
ends. -/
def stripL (cs : List Char) : List Char :=
  ((cs.dropWhile isWs).reverse.dropWhile isWs).reverse

/-- Python `s.strip()`. -/
def pyStrip (s : String) : String := String.mk (stripL s.data)

/-- Python `s.lower()` (ASCII case folding, character by character). -/
def pyLower (s : String) : String := String.mk (s.data.map Char.toLower)

/-- Accumulator worker for Python `s.split()`: `cur` is the reversed
partial token currently being read. -/
def wsTokensGo : List Char → List Char → List (List Char)
  | [], cur => if cur.isEmpty then [] else [cur.reverse]
  | c :: rest, cur =>
    if isWs c then
      if cur.isEmpty then wsTokensGo rest [] else cur.reverse :: wsTokensGo rest []
    else wsTokensGo rest (c :: cur)

/-- Python `s.split()` with no argument: runs of whitespace separate tokens,
empty tokens are not produced. -/
def wsTokens (cs : List Char) : List (List Char) := wsTokensGo cs []

/-- Python `s.split(sep)` for a one-character separator: split at every
occurrence of the separator, keeping empty pieces. -/
def splitChar (p : Char → Bool) : List Char → List (List Char)
  | [] => [[]]
  | c :: rest =>
    if p c then [] :: splitChar p rest
    else
      match splitChar p rest with
      | [] => [[c]]
      | t :: ts => (c :: t) :: ts

/-- Python `s.split("==")`: split at every non-overlapping occurrence of
`==`, keeping empty pieces (used on `pip freeze` lines). -/
def splitEqEq : List Char → List (List Char)
  | [] => [[]]
  | '=' :: '=' :: rest => [] :: splitEqEq rest
  | c :: rest =>
    match splitEqEq rest with
    | [] => [[c]]
    | t :: ts => (c :: t) :: ts

/-- Boolean list prefix test (used for substring search and
`str.startswith`). -/
def prefixOfB : List Char → List Char → Bool
  | [], _ => true
  | _ :: _, [] => false
  | a :: as, b :: bs => a == b && prefixOfB as bs

/-- Python `needle in hay` substring containment on character lists. -/
def subStrB (n : List Char) : List Char → Bool
  | [] => prefixOfB n []
  | c :: cs => prefixOfB n (c :: cs) || subStrB n cs

/-- Python `needle in hay` substring containment on strings. -/
def strContains (needle hay : String) : Bool := subStrB needle.data hay.data

/-- Python `s.startswith(pre)`. -/
def pyStartsWith (s pre : String) : Bool := prefixOfB pre.data s.data

/-- `re.search(r"Collecting (\S+)", line)`: scan left to right for the first
occurrence of the literal text `Collecting ` followed immediately by at least
one non-whitespace character, and return the maximal non-whitespace run after
it (the capture group). -/
def findCollecting : List Char → Option (List Char)
  | [] => none
  | c :: rest =>
    if prefixOfB "Collecting ".data (c :: rest)
        && (match (c :: rest).drop 11 with
            | [] => false
            | d :: _ => !isWs d) then
      some (((c :: rest).drop 11).takeWhile (fun d => !isWs d))
    else findCollecting rest

/-- String-level wrapper for `findCollecting`. -/
def findCollectingS (s : String) : Option String := (findCollecting s.data).map String.mk

/-- The message of a Python `IndexError`, raised by `[1]` / `[0]` on a list
that is too short. -/
def indexErrorMsg : String := "IndexError: list index out of range"

/-- `stdout_line.split(' ')[1].split('[')[0].strip()`, the package-name
extraction used in the streamed-output loops of `install_from_requirements`,
`remove_package`, `remove_all_packages` and `update_packages`.  `[1]` faults
(`none`) when the line has no second space-separated piece. -/
def extractPkgToken (line : String) : Option String :=
  match (splitChar (fun c => c == ' ') line.data).get? 1 with
  | none => none
  | some t => some (String.mk (stripL ((splitChar (fun c => c == '[') t).headD [])))

/-- `re.split(r"[=<>]", s)[0]`: everything before the first
version-comparison character. `re.split` always returns at least one piece,
so the `[0]` cannot fault. -/
def verSplitFirst (s : String) : String :=
  String.mk ((splitChar (fun c => c == '=' || c == '<' || c == '>') s.data).headD [])

/-- The requirements-file parsing of `install_from_requirements`
(PENVCreator.py lines 122-126): keep lines whose `strip()` is truthy and that
do not start (unstripped) with `#`; from each kept line take
`re.split(r"[=<>]", line.strip())[0]`. -/
def parse_requirements (fileLines : List String) : List String :=
  (fileLines.filter (fun l => !(stripL l.data).isEmpty && !pyStartsWith l "#")).map
    (fun l => verSplitFirst (pyStrip l))

/-- The set-comprehension parser of `pip list` output used by
`is_package_installed` and `install_from_requirements` (lines 75 and 143):
`{line.split()[0].lower() for line in stdout.splitlines()[2:] if line.strip()}`.
Modelled as an ordered list (only membership is ever used); the `[0]`
indexing is modelled as fallible even though the `if line.strip()` guard
makes it total. The caller applies this to `lines.drop 2`. -/
def pipListNamesE : List String → Except String (List String)
  | [] => Except.ok []
  | l :: ls =>
    if (stripL l.data).isEmpty then pipListNamesE ls
    else
      match (wsTokens l.data).head? with
      | none => Except.error indexErrorMsg
      | some t => Except.map (fun r => pyLower (String.mk t) :: r) (pipListNamesE ls)

/-- The installed-package set derived from the full `pip list` stdout:
skip the two header lines, then parse. -/
def installedPackagesE (lines : List String) : Except String (List String) :=
  pipListNamesE (lines.drop 2)

/-- The per-line parser of `pip list --outdated` output in
`check_for_updates` (lines 265-267): `line.split()[0]` with no blank-line
guard, so a blank or whitespace-only line faults with an `IndexError`. -/
def outdatedNamesE : List String → Except String (List String)
  | [] => Except.ok []
  | l :: ls =>
    match (wsTokens l.data).head? with
    | none => Except.error indexErrorMsg
    | some t => Except.map (fun r => String.mk t :: r) (outdatedNamesE ls)

/-- The outdated-package list of `check_for_updates` (lines 260-267): if the
stdout has more than two lines, parse everything after the two-line header,
otherwise report no outdated packages. -/
def outdatedPackagesE (lines : List String) : Except String (List String) :=
  if lines.length > 2 then outdatedNamesE (lines.drop 2) else Except.ok []

/-- The result of one external subprocess, as observed by the program:
captured stdout lines, captured stderr lines, and the exit code. -/
structure SubResult where
  stdout : List String
  stderr : List String
  rc : Nat
deriving DecidableEq

/-- Observable events of a program run.  `log` is the `log()` helper
(`[INFO]`-prefixed print), `out` a bare `print`, `sub` the argument vector of
a launched subprocess, `prompt` the text of an `input()` call, `label` a
`pbar.set_description` update, `tick` a `pbar.update(1)` step, and
`exitCode` a `sys.exit(n)` call. -/
inductive Event where
  | log (msg : String)
  | out (msg : String)
  | sub (args : List String)
  | prompt (msg : String)
  | label (msg : String)
  | tick
  | exitCode (c : Nat)
deriving DecidableEq

/-- Result of one modelled operation: its events, the index of the next
unconsumed subprocess result, and the uncaught Python exception, if any. -/
structure OpRes where
  events : List Event
  next : Nat
  exc : Option String
deriving DecidableEq

/-- The message of the `NameError` raised when `install_package` reads
`current_package` although no `Collecting` line was ever matched. -/
def nameErrorMsg : String := "NameError: name current_package is not defined"

/-- `get_python_executable` (lines 17-22).  The model fixes the POSIX branch
(`os.path.join(venv_name, "bin", "python")`); on the Windows branch only this
path string differs, which no claim depends on. -/
def get_python_executable (venv_name : String) : String :=
  venv_name ++ "/bin/python"

/-- `is_package_installed` (lines 65-76): run `pip list`, parse the installed
set, and test lower-cased membership of the requested name. -/
def is_package_installed (subs : Nat → SubResult) (idx : Nat) (venv pkg : String) :
    List Event × Nat × Except String Bool :=
  ([Event.sub [get_python_executable venv, "-m", "pip", "list"]], idx + 1,
    Except.map (fun iset => iset.contains (pyLower pkg)) (installedPackagesE (subs idx).stdout))

/-- The streamed-stdout loop of `install_package` (lines 98-104): for each
stripped line matching `Collecting (\S+)`, emit a label update and a progress
tick and remember the captured name.  Returns the events and the final value
of `current_package` (`none` when it was never assigned). -/
def collectLoop : List String → Option String → List Event × Option String
  | [], cur => ([], cur)
  | l :: ls, cur =>
    match findCollectingS (pyStrip l) with
    | some cp =>
      match collectLoop ls (some cp) with
      | (es, fin) => (Event.label ("Installing: " ++ cp) :: Event.tick :: es, fin)
    | none => collectLoop ls cur

/-- `install_package` (lines 79-111).  Consumes the `pip list` subprocess at
`idx` and, when the package is not yet installed, the `pip install`
subprocess at `idx + 1`.  After the install subprocess exits, the final
status label reads `current_package`, which is a `NameError` when no
`Collecting` line was matched. -/
def install_package (subs : Nat → SubResult) (idx : Nat) (venv pkg : String) : OpRes :=
  match is_package_installed subs idx venv pkg with
  | (qes, qnext, qres) =>
    match qres with
    | Except.error m => ⟨qes, qnext, some m⟩
    | Except.ok true =>
      ⟨qes ++ [Event.log ("ERROR: " ++ pkg ++ " (skipped, already installed)")], qnext, none⟩
    | Except.ok false =>
      let r := subs qnext
      let head := [Event.log ("Installing: " ++ pkg ++ "..."),
                   Event.sub [get_python_executable venv, "-m", "pip", "install", pkg]]
      match collectLoop r.stdout none with
      | (es, none) => ⟨qes ++ head ++ es, qnext + 1, some nameErrorMsg⟩
      | (es, some cp) =>
        ⟨qes ++ head ++ es ++
            [Event.label ("Installing: " ++ cp ++ (if r.rc = 0 then " (success)" else " (failed)"))],
          qnext + 1, none⟩

/-- The streamed-stdout loop of `install_from_requirements` (lines 166-173):
strip the line; when it contains `Collecting`, extract
`split(' ')[1].split('[')[0].strip()` (which can raise `IndexError`) and emit
a label update; tick the bar once per line regardless. -/
def reqLoop : List String → List Event × Option String
  | [] => ([], none)
  | l :: ls =>
    if strContains "Collecting" (pyStrip l) then
      match extractPkgToken (pyStrip l) with
      | none => ([], some indexErrorMsg)
      | some name =>
        match reqLoop ls with
        | (es, e) => (Event.label ("Installing: " ++ name) :: Event.tick :: es, e)
    else
      match reqLoop ls with
      | (es, e) => (Event.tick :: es, e)

/-- `install_from_requirements` (lines 114-180).  `fsExists` models
`os.path.exists(requirements_file)` and `fileLines` the lines read from it
(both oracle inputs for the filesystem).  Consumes the `pip list` subprocess
at `idx` and the single batch `pip install -r` subprocess at `idx + 1`. -/
def install_from_requirements (subs : Nat → SubResult) (idx : Nat) (fsExists : Bool)
    (fileLines : List String) (venv reqFile : String) : OpRes :=
  if !fsExists then
    ⟨[Event.log ("ERROR: \x27" ++ reqFile ++ "\x27 not found.")], idx, none⟩
  else
    let packages := parse_requirements fileLines
    if packages.isEmpty then
      ⟨[Event.log "No valid packages found in requirements.txt."], idx, none⟩
    else
      let e0 := [Event.log "Checking for installed packages before installation...",
                 Event.sub [get_python_executable venv, "-m", "pip", "list"]]
      match installedPackagesE (subs idx).stdout with
      | Except.error m => ⟨e0, idx + 1, some m⟩
      | Except.ok iset =>
        let toInstall := packages.filter (fun p => !iset.contains (pyLower p))
        let already := packages.filter (fun p => iset.contains (pyLower p))
        let e1 := already.map (fun p => Event.log ("INFO: " ++ p ++ " is already installed (skipping)"))
        if toInstall.isEmpty then
          ⟨e0 ++ e1 ++ [Event.log "All required packages are already installed. Nothing to install."],
            idx + 1, none⟩
        else
          let e2 := [Event.log ("Installing " ++ toString toInstall.length ++ " packages from \x27" ++
                        reqFile ++ "\x27..."),
                     Event.sub [get_python_executable venv, "-m", "pip", "install", "-r", reqFile]]
          match reqLoop (subs (idx + 1)).stdout with
          | (es, some m) => ⟨e0 ++ e1 ++ e2 ++ es, idx + 2, some m⟩
          | (es, none) =>
            let e3 := [Event.log (if (subs (idx + 1)).rc = 0 then "Installation process complete."
                        else "ERROR: Installation failed for some packages. Check the output for details.")]
            ⟨e0 ++ e1 ++ e2 ++ es ++ e3, idx + 2, none⟩

/-- The shared streamed-stdout loop shape of `remove_package`,
`remove_all_packages` (marker `Uninstalling`) and `update_packages` (marker
`Collecting`): on each raw line containing the marker, extract
`split(' ')[1].split('[')[0].strip()` (possible `IndexError`) and emit a
label update.  The exit code and stderr of the subprocess are never read. -/
def markerScan (marker labelPre : String) : List String → List Event × Option String
  | [] => ([], none)
  | l :: ls =>
    if strContains marker l then
      match extractPkgToken l with
      | none => ([], some indexErrorMsg)
      | some n =>
        match markerScan marker labelPre ls with
        | (es, e) => (Event.label (labelPre ++ n) :: es, e)
    else markerScan marker labelPre ls

/-- `remove_package` (lines 182-207).  Consumes the `pip uninstall`
subprocess at `idx`; reads its stdout for `Uninstalling` markers, reads and
discards its stderr, ticks the single-step bar and logs success without ever
looking at the exit code. -/
def remove_package (subs : Nat → SubResult) (idx : Nat) (venv pkg : String) : OpRes :=
  let head := [Event.log ("Removing package: " ++ pkg ++ "..."),
               Event.sub [get_python_executable venv, "-m", "pip", "uninstall", "-y", pkg]]
  match markerScan "Uninstalling" "Removing: " (subs idx).stdout with
  | (es, some m) => ⟨head ++ es, idx + 1, some m⟩
  | (es, none) =>
    ⟨head ++ es ++ [Event.tick,
        Event.log ("Package \x27" ++ pkg ++ "\x27 removed successfully.")], idx + 1, none⟩

/-- The per-package loop of `remove_all_packages` (lines 224-242): one
`pip uninstall -y` subprocess per package, label updates from `Uninstalling`
lines, stderr discarded, one tick per package regardless of outcome. -/
def removeAllLoop (subs : Nat → SubResult) (venv : String) :
    List String → Nat → List Event × Nat × Option String
  | [], i => ([], i, none)
  | p :: ps, i =>
    let head := Event.sub [get_python_executable venv, "-m", "pip", "uninstall", "-y", p]
    match markerScan "Uninstalling" "Removing: " (subs i).stdout with
    | (es, some m) => (head :: es, i + 1, some m)
    | (es, none) =>
      match removeAllLoop subs venv ps (i + 1) with
      | (es2, n, e2) => (head :: es ++ Event.tick :: es2, n, e2)

/-- `remove_all_packages` (lines 210-244).  Consumes the `pip freeze`
subprocess at `idx` (package names are `line.split("==")[0]`), then one
uninstall subprocess per package. -/
def remove_all_packages (subs : Nat → SubResult) (idx : Nat) (venv : String) : OpRes :=
  let e0 := [Event.log "Removing all installed packages...",
             Event.sub [get_python_executable venv, "-m", "pip", "freeze"]]
  let packages := (subs idx).stdout.map (fun l => String.mk ((splitEqEq l.data).headD []))
  if packages.isEmpty then ⟨e0 ++ [Event.log "No packages to remove."], idx + 1, none⟩
  else
    match removeAllLoop subs venv packages (idx + 1) with
    | (es, n, some m) => ⟨e0 ++ es, n, some m⟩
    | (es, n, none) => ⟨e0 ++ es ++ [Event.log "All packages removed successfully."], n, none⟩

/-- The per-package loop of `update_packages` (lines 284-303): one
`pip install --upgrade` subprocess per package, label updates from
`Collecting` lines, stderr discarded, one tick per package regardless of
outcome. -/
def updateLoop (subs : Nat → SubResult) (venv : String) :
    List String → Nat → List Event × Nat × Option String
  | [], i => ([], i, none)
  | p :: ps, i =>
    let head := Event.sub [get_python_executable venv, "-m", "pip", "install", "--upgrade", p]
    match markerScan "Collecting" "Updating: " (subs i).stdout with
    | (es, some m) => (head :: es, i + 1, some m)
    | (es, none) =>
      match updateLoop subs venv ps (i + 1) with
      | (es2, n, e2) => (head :: es ++ Event.tick :: es2, n, e2)

/-- `update_packages` (lines 280-305). -/
def update_packages (subs : Nat → SubResult) (idx : Nat) (packages : List String)
    (venv : String) : OpRes :=
  match updateLoop subs venv packages idx with
  | (es, n, some m) => ⟨es, n, some m⟩
  | (es, n, none) => ⟨es ++ [Event.log "All selected packages updated successfully."], n, none⟩

/-- Result of `check_for_updates`: events, next subprocess index, the number
of stdin lines consumed, and the uncaught exception, if any. -/
structure CfuRes where
  events : List Event
  next : Nat
  used : Nat
  exc : Option String
deriving DecidableEq

/-- `check_for_updates` (lines 247-277).  Consumes the `pip list --outdated`
subprocess at `idx`; parsing its output can raise `IndexError` (blank line
after the header).  When outdated packages exist it prompts on stdin and, on
answer `y`, runs `update_packages`. -/
def check_for_updates (subs : Nat → SubResult) (idx : Nat) (stdin : List String)
    (venv : String) : CfuRes :=
  let e0 := [Event.log "Checking for outdated packages...",
             Event.sub [get_python_executable venv, "-m", "pip", "list", "--outdated"]]
  match outdatedPackagesE (subs idx).stdout with
  | Except.error m => ⟨e0, idx + 1, 0, some m⟩
  | Except.ok pkgs =>
    if pkgs.isEmpty then ⟨e0 ++ [Event.log "All packages are up to date."], idx + 1, 0, none⟩
    else
      let e1 := e0 ++ [Event.log ("Found " ++ toString pkgs.length ++ " outdated package(s)."),
                       Event.prompt "Do you want to update all outdated packages? (y/n): "]
      match stdin with
      | [] => ⟨e1, idx + 1, 0, some "EOFError"⟩
      | ans :: _ =>
        if pyLower (pyStrip ans) = "y" then
          match update_packages subs (idx + 1) pkgs venv with
          | ⟨ues, unext, uexc⟩ => ⟨e1 ++ ues, unext, 1, uexc⟩
        else ⟨e1, idx + 1, 1, none⟩

/-- Constant `PYTHON_VERSION` (line 7). -/
def PYTHON_VERSION : String := "3.10.6"

/-- Constant `PYTHON_INSTALLER` (line 8). -/
def PYTHON_INSTALLER : String := "python-" ++ PYTHON_VERSION ++ "-amd64.exe"

/-- Constant `PYTHON_INSTALL_PATH` (line 10); the model fixes the POSIX
branch of the platform conditional. -/
def PYTHON_INSTALL_PATH : String := "/usr/local/bin/python3"

/-- `create_virtual_env` (lines 54-58): log, run `python -m venv <name>`
with `check=True` (a non-zero exit raises `CalledProcessError`), log
success. -/
def create_virtual_env (subs : Nat → SubResult) (idx : Nat) (venv : String) : OpRes :=
  let head := [Event.log ("Creating virtual environment: " ++ venv ++ "..."),
               Event.sub ["python", "-m", "venv", venv]]
  if (subs idx).rc = 0 then
    ⟨head ++ [Event.log ("Virtual environment \x27" ++ venv ++ "\x27 created successfully.")],
      idx + 1, none⟩
  else ⟨head, idx + 1, some "CalledProcessError"⟩

/-- The environment-creation step of `main` (lines 334-335): create the
environment only when no directory of that name exists.  The returned path
list is the filesystem afterwards; that a successful `python -m venv E`
subprocess leaves a directory `E` behind is the documented contract of the
external tool (spec section 4.3), not code of this repository, and is the
one modelled external effect here. -/
def venvSetup (subs : Nat → SubResult) (idx : Nat) (fs : List String) (venv : String) :
    OpRes × List String :=
  if fs.contains venv then (⟨[], idx, none⟩, fs)
  else (create_virtual_env subs idx venv, if (subs idx).rc = 0 then venv :: fs else fs)

/-- The oracle for one whole program run: connectivity-probe outcome, the
outcome of the `python --version` check (`pythonFound = false` models
`FileNotFoundError`), installer download/run outcomes, the stdin script, the
stream of subprocess results in launch order, the set of existing filesystem
paths, and readable file contents. -/
structure World where
  internetOk : Bool
  pythonFound : Bool
  pythonRc : Nat
  downloadOk : Bool
  installerRc : Nat
  stdin : List String
  subs : Nat → SubResult
  fs : List String
  files : List (String × List String)

/-- Outcome of a whole program run: `normal` (fell off `main`, exit status
0), `exited c` (explicit `sys.exit(c)`), or `crashed` (uncaught exception;
CPython then terminates with status 1). -/
inductive Outcome where
  | normal
  | exited (c : Nat)
  | crashed (msg : String)
deriving DecidableEq

/-- Whether an outcome is a process termination with a non-zero exit status
(an uncaught exception makes CPython exit with status 1). -/
def exitsNonzero : Outcome → Bool
  | Outcome.normal => false
  | Outcome.exited c => c != 0
  | Outcome.crashed _ => true

/-- `check_python` / `download_python` / `install_python` as invoked at the
top of `main` (lines 327-330): the version probe (whose `check=True` raises
`CalledProcessError` on a found-but-failing interpreter), and on
`FileNotFoundError` the download (an uncaught network exception on failure)
and the silent installer run (`check=True` again). -/
def pythonSetup (w : World) : List Event × Option String :=
  if w.pythonFound then
    if w.pythonRc = 0 then
      ([Event.sub ["python", "--version"], Event.log "Python is already installed."], none)
    else ([Event.sub ["python", "--version"]], some "CalledProcessError")
  else
    let e0 := [Event.sub ["python", "--version"],
               Event.log "Python is not installed. Downloading and installing...",
               Event.log ("Downloading " ++ PYTHON_INSTALLER ++ "...")]
    if !w.downloadOk then (e0, some "requests.exceptions.ConnectionError")
    else
      let e1 := e0 ++ [Event.log "Python installer downloaded.",
                       Event.log "Installing Python...",
                       Event.sub [PYTHON_INSTALLER, "/quiet", "InstallAllUsers=1", "PrependPath=1",
                                  "TargetDir=" ++ PYTHON_INSTALL_PATH]]
      if w.installerRc = 0 then (e1 ++ [Event.log "Python installed successfully!"], none)
      else (e1, some "CalledProcessError")

/-- The menu text printed at the top of every loop iteration
(lines 340-348). -/
def menuEvents : List Event :=
  [Event.out "\nChoose an option:",
   Event.out "[1] Install a package",
   Event.out "[2] Remove a package",
   Event.out "[3] Remove all packages",
   Event.out "[4] Install from requirements.txt",
   Event.out "[5] List installed packages",
   Event.out "[6] Generate requirements.txt",
   Event.out "[7] Check for updates",
   Event.out "[8] Exit"]

/-- The menu prompt (line 349). -/
def choicePrompt : String := "Enter your choice (1-8): "

/-- `open(path)` content lookup in the filesystem oracle. -/
def lookupFile (files : List (String × List String)) (p : String) : List String :=
  ((files.find? (fun kv => kv.1 == p)).map Prod.snd).getD []

/-- Record a file written by redirecting subprocess output (menu option 6). -/
def setFile (files : List (String × List String)) (p : String) (v : List String) :
    List (String × List String) :=
  (p, v) :: files

/-- Add a path to the filesystem oracle if absent. -/
def addPath (fs : List String) (p : String) : List String :=
  if fs.contains p then fs else p :: fs

/-- Result of handling one menu choice: events, next subprocess index, the
number of stdin lines consumed after the choice itself, the filesystem and
file contents afterwards, whether the loop continues, and the uncaught
exception, if any. -/
structure StepRes where
  events : List Event
  next : Nat
  used : Nat
  fs : List String
  files : List (String × List String)
  cont : Bool
  exc : Option String

/-- One dispatch of the interactive menu (lines 351-382) on an
already-stripped choice string; `stdin` is the input script after the choice
line. -/
def menuStep (subs : Nat → SubResult) (venv choice : String) (stdin : List String)
    (idx : Nat) (fs : List String) (files : List (String × List String)) : StepRes :=
  if choice = "1" then
    match stdin with
    | [] => ⟨[Event.prompt "Enter package name to install: "], idx, 0, fs, files, true, some "EOFError"⟩
    | a :: _ =>
      if (pyStrip a).isEmpty then
        ⟨[Event.prompt "Enter package name to install: "], idx, 1, fs, files, true, none⟩
      else
        match install_package subs idx venv (pyStrip a) with
        | ⟨res, rnext, rexc⟩ =>
          ⟨Event.prompt "Enter package name to install: " :: res, rnext, 1, fs, files, true, rexc⟩
  else if choice = "2" then
    match stdin with
    | [] => ⟨[Event.prompt "Enter package name to remove: "], idx, 0, fs, files, true, some "EOFError"⟩
    | a :: _ =>
      if (pyStrip a).isEmpty then
        ⟨[Event.prompt "Enter package name to remove: "], idx, 1, fs, files, true, none⟩
      else
        match remove_package subs idx venv (pyStrip a) with
        | ⟨res, rnext, rexc⟩ =>
          ⟨Event.prompt "Enter package name to remove: " :: res, rnext, 1, fs, files, true, rexc⟩
  else if choice = "3" then
    match stdin with
    | [] => ⟨[Event.prompt "Are you sure you want to remove all packages? (y/n): "], idx, 0, fs,
             files, true, some "EOFError"⟩
    | a :: _ =>
      if pyLower (pyStrip a) = "y" then
        match remove_all_packages subs idx venv with
        | ⟨res, rnext, rexc⟩ =>
          ⟨Event.prompt "Are you sure you want to remove all packages? (y/n): " :: res, rnext, 1,
            fs, files, true, rexc⟩
      else ⟨[Event.prompt "Are you sure you want to remove all packages? (y/n): "], idx, 1, fs,
            files, true, none⟩
  else if choice = "4" then
    match stdin with
    | [] => ⟨[Event.prompt "Enter the path to requirements.txt: "], idx, 0, fs, files, true,
             some "EOFError"⟩
    | a :: _ =>
      if (pyStrip a).isEmpty then
        ⟨[Event.prompt "Enter the path to requirements.txt: "], idx, 1, fs, files, true, none⟩
      else
        match install_from_requirements subs idx (fs.contains (pyStrip a))
            (lookupFile files (pyStrip a)) venv (pyStrip a) with
        | ⟨res, rnext, rexc⟩ =>
          ⟨Event.prompt "Enter the path to requirements.txt: " :: res, rnext, 1, fs, files, true,
            rexc⟩
  else if choice = "5" then
    ⟨[Event.sub [get_python_executable venv, "-m", "pip", "list"]], idx + 1, 0, fs, files, true,
      none⟩
  else if choice = "6" then
    ⟨[Event.log "Generating requirements.txt...",
      Event.sub [get_python_executable venv, "-m", "pip", "freeze"],
      Event.log "requirements.txt created successfully."], idx + 1, 0,
      addPath fs "requirements.txt", setFile files "requirements.txt" (subs idx).stdout, true,
      none⟩
  else if choice = "7" then
    match check_for_updates subs idx stdin venv with
    | ⟨res, rnext, rused, rexc⟩ => ⟨res, rnext, rused, fs, files, true, rexc⟩
  else if choice = "8" then
    ⟨[Event.log "Exiting... Goodbye!"], idx, 0, fs, files, false, none⟩
  else
    ⟨[Event.log "Invalid choice. Please enter a number between 1 and 8."], idx, 0, fs, files,
      true, none⟩

/-- The `while True` menu loop of `main` (lines 339-382).  Each iteration
prints the menu, reads a choice (`input()` at end of script raises
`EOFError`), dispatches, and either continues, breaks on choice `8`, or
terminates on an uncaught exception. -/
def mainLoop (subs : Nat → SubResult) (venv : String) :
    List String → Nat → List String → List (String × List String) → List Event × Outcome
  | [], _, _, _ => (menuEvents ++ [Event.prompt choicePrompt], Outcome.crashed "EOFError")
  | c :: rest, idx, fs, files =>
    let pre := menuEvents ++ [Event.prompt choicePrompt]
    let s := menuStep subs venv (pyStrip c) rest idx fs files
    match s.exc with
    | some m => (pre ++ s.events, Outcome.crashed m)
    | none =>
      if s.cont then
        match mainLoop subs venv (rest.drop s.used) s.next s.fs s.files with
        | (es, o) => (pre ++ s.events ++ es, o)
      else (pre ++ s.events, Outcome.normal)
termination_by stdin _ _ _ => stdin.length
decreasing_by
  simp only [List.length_cons, List.length_drop]
  omega

/-- `main` (lines 317-382): connectivity check (the one `sys.exit(1)`),
runtime provisioning, environment-name prompt, environment creation, startup
outdated check, then the interactive loop. -/
def mainM (w : World) : List Event × Outcome :=
  if w.internetOk then
    match pythonSetup w with
    | (es1, some m) => (es1, Outcome.crashed m)
    | (es1, none) =>
      let pr := Event.prompt "Enter the virtual environment name (default: venv): "
      match w.stdin with
      | [] => (es1 ++ [pr], Outcome.crashed "EOFError")
      | a :: rest =>
        let venv := if (pyStrip a).isEmpty then "venv" else pyStrip a
        match venvSetup w.subs 0 w.fs venv with
        | (vr, fs1) =>
          match vr.exc with
          | some m => (es1 ++ pr :: vr.events, Outcome.crashed m)
          | none =>
            match check_for_updates w.subs vr.next rest venv with
            | ⟨cfes, cfnext, cfused, cfexc⟩ =>
              match cfexc with
              | some m => (es1 ++ pr :: vr.events ++ cfes, Outcome.crashed m)
              | none =>
                match mainLoop w.subs venv (rest.drop cfused) cfnext fs1 w.files with
                | (les, o) => (es1 ++ pr :: vr.events ++ cfes ++ les, o)
  else
    ([Event.log "ERROR: PENVCreator requires an internet connection to function.",
      Event.log "Please check your connection and try again.",
      Event.exitCode 1], Outcome.exited 1)

/-- Number of subprocess invocations in an event list. -/
def countSub (es : List Event) : Nat :=
  (es.filter (fun e => match e with | Event.sub _ => true | _ => false)).length

/-- Whether an event is a subprocess invocation whose argument vector
contains the `install` subcommand. -/
def isInstallSub (e : Event) : Bool :=
  match e with
  | Event.sub args => args.contains "install"
  | _ => false

/-- A concrete world for claim C1: connectivity succeeds, Python is present,
but the `python -m venv` subprocess exits 1, so `check=True` raises an
uncaught `CalledProcessError` and the process terminates abnormally (exit
status 1) although the connectivity check passed. -/
def wC1 : World :=
  { internetOk := true
    pythonFound := true
    pythonRc := 0
    downloadOk := true
    installerRc := 0
    stdin := ["myenv"]
    subs := fun _ => ⟨[], [], 1⟩
    fs := []
    files := [] }

/-- A subprocess-result supply whose every entry is an `Uninstalling` line on
stdout, empty stderr, exit code 0 (used to witness C4). -/
def subsA : Nat → SubResult := fun _ => ⟨["Uninstalling demo-1.0:"], [], 0⟩

/-- Like `subsA` but with noisy stderr and a non-zero exit code (used to
witness C4: the two runs are indistinguishable). -/
def subsB : Nat → SubResult := fun _ => ⟨["Uninstalling demo-1.0:"], ["ERROR: boom"], 3⟩

/-- `pip list` output whose installed set is `{"b"}` (used for C3). -/
def pipListB : SubResult := ⟨["Package Version", "------- -------", "b 1.0.0"], [], 0⟩

/-- Subprocess supply for C3: the `pip list` query at index 0 answers with
`pipListB`; the batch `pip install -r` at index 1 answers with an arbitrary
`batch` result. -/
def c3subs (batch : SubResult) : Nat → SubResult :=
  fun n => if n = 0 then pipListB else batch

/-- Subprocess supply for the second half of C3: every requested name is
already installed. -/
def c3subsAll : Nat → SubResult :=
  fun _ => ⟨["Package Version", "------- -------", "a 1.0", "b 1.0", "c 1.0"], [], 0⟩

/-- The concrete event prefix of the C3 scenario (installed set `{"b"}`,
manifest `["a", "b", "c"]`): the `pip list` query, the individual
already-installed log for `b`, the install log, and the single batch
`pip install -r requirements.txt` subprocess for the whole original file. -/
def c3head : List Event :=
  [Event.log "Checking for installed packages before installation...",
   Event.sub ["venv/bin/python", "-m", "pip", "list"],
   Event.log "INFO: b is already installed (skipping)",
   Event.log "Installing 2 packages from \x27requirements.txt\x27...",
   Event.sub ["venv/bin/python", "-m", "pip", "install", "-r", "requirements.txt"]]

/-- Subprocess supply for the C2 witness: the `pip list` query reports an
empty installed set and the `pip install` stream has no `Collecting` line. -/
def subsC2 : Nat → SubResult :=
  fun n => if n = 0 then ⟨["Package Version", "------- -------"], [], 0⟩
           else ⟨["Requirement already satisfied: foo"], [], 0⟩

/-- Subprocess supply for the C5 witness: `numpy` and `requests` are
installed. -/
def subsC5 : Nat → SubResult :=
  fun _ => ⟨["Package Version", "------- -------", "numpy 1.26.0", "requests 2.31.0"], [], 0⟩

/-- Subprocess supply for the C7 witness: `pip list --outdated` prints only
the two-line header. -/
def subsC7 : Nat → SubResult :=
  fun _ => ⟨["Package Version Latest Type", "------- ------- ------ ----"], [], 0⟩

/-- Subprocess supply for the C9 witness: `pip list --outdated` prints the
header plus one whitespace-only line. -/
def subsC9 : Nat → SubResult :=
  fun _ => ⟨["Package Version Latest Type", "------- ------- ------ ----", "  "], [], 0⟩

/-- An all-success, all-empty subprocess supply (used to witness C8). -/
def subsOk : Nat → SubResult := fun _ => ⟨[], [], 0⟩

theorem wsTokensGo_ne_nil (cs : List Char) :
    ∀ cur : List Char, cur.isEmpty = false → wsTokensGo cs cur ≠ [] := by
  induction cs with
  | nil => intro cur h; simp [wsTokensGo, h]
  | cons c rest ih =>
    intro cur h
    simp only [wsTokensGo, h]
    split
    · simp
    · exact ih (c :: cur) rfl

theorem wsTokensGo_all_ws :
    ∀ cs : List Char, cs.all isWs = true → wsTokensGo cs [] = [] := by
  intro cs
  induction cs with
  | nil => intro _; rfl
  | cons c rest ih =>
    intro h
    simp only [List.all_cons, Bool.and_eq_true] at h
    simp [wsTokensGo, h.1]
    exact ih h.2

theorem stripL_nil_of_wsTokens_nil :
    ∀ cs : List Char, wsTokensGo cs [] = [] → stripL cs = [] := by
  intro cs
  induction cs with
  | nil => intro _; rfl
  | cons c rest ih =>
    intro h
    by_cases hc : isWs c = true
    · have h' : wsTokensGo rest [] = [] := by
        simpa [wsTokensGo, hc] using h
      have hr := ih h'
      unfold stripL at hr ⊢
      rw [List.dropWhile_cons, if_pos hc]
      exact hr
    · exfalso
      have hne := wsTokensGo_ne_nil rest [c] rfl
      simp [wsTokensGo, hc] at h
      exact hne h

theorem pipListNamesE_isOk : ∀ ls : List String, (pipListNamesE ls).isOk = true := by
  intro ls
  induction ls with
  | nil => rfl
  | cons l ls ih =>
    simp only [pipListNamesE]
    split
    · exact ih
    · rcases hh : (wsTokens l.data).head? with _ | t
      · exfalso
        have h0 : wsTokens l.data = [] := by
          cases hx : wsTokens l.data
          · rfl
          · rw [hx] at hh; cases hh
        have := stripL_nil_of_wsTokens_nil l.data h0
        simp [this] at *
      · cases hp : pipListNamesE ls
        · rw [hp] at ih; cases ih
        · simp [Except.map, hp, Except.isOk, Except.toBool]

theorem outdatedNamesE_blank :
    ∀ ls : List String, (∃ l ∈ ls, l.data.all isWs = true) →
      outdatedNamesE ls = Except.error indexErrorMsg := by
  intro ls
  induction ls with
  | nil => rintro ⟨l, hl, _⟩; cases hl
  | cons l ls ih =>
    rintro ⟨x, hx, hws⟩
    rcases List.mem_cons.mp hx with hxl | hmem
    · subst hxl
      have h0 : wsTokens x.data = [] := wsTokensGo_all_ws x.data hws
      simp [outdatedNamesE, wsTokens] at h0 ⊢
      simp [h0]
    · simp only [outdatedNamesE]
      rcases hh : (wsTokens l.data).head? with _ | t
      · rfl
      · rw [ih ⟨x, hmem, hws⟩]
        rfl

theorem collectLoop_all_none :
    ∀ (ls : List String) (cur : Option String),
      (∀ l ∈ ls, findCollectingS (pyStrip l) = none) → collectLoop ls cur = ([], cur) := by
  intro ls
  induction ls with
  | nil => intro cur _; rfl
  | cons l ls ih =>
    intro cur h
    have h1 := h l (List.mem_cons_self _ _)
    simp [collectLoop, h1]
    exact ih cur (fun x hx => h x (List.mem_cons_of_mem _ hx))

theorem reqLoop_no_sub : ∀ ls : List String, ∀ e ∈ (reqLoop ls).1, isInstallSub e = false := by
  intro ls
  induction ls with
  | nil => intro e he; cases he
  | cons l ls ih =>
    intro e he
    rcases hr : reqLoop ls with ⟨es, ex⟩
    rw [hr] at ih
    simp only [reqLoop, hr] at he
    split at he
    · rcases hx : extractPkgToken (pyStrip l) with _ | n
      · rw [hx] at he; cases he
      · rw [hx] at he
        simp at he
        rcases he with h | h | h
        · subst h; rfl
        · subst h; rfl
        · exact ih e h
    · simp at he
      rcases he with h | h
      · subst h; rfl
      · exact ih e h

theorem removeAllLoop_congr (subs subs2 : Nat → SubResult) (venv : String)
    (h : ∀ i, (subs i).stdout = (subs2 i).stdout) :
    ∀ (ps : List String) (i : Nat),
      removeAllLoop subs venv ps i = removeAllLoop subs2 venv ps i := by
  intro ps
  induction ps with
  | nil => intro i; rfl
  | cons p ps ih =>
    intro i
    simp only [removeAllLoop, h i, ih (i + 1)]

theorem updateLoop_congr (subs subs2 : Nat → SubResult) (venv : String)
    (h : ∀ i, (subs i).stdout = (subs2 i).stdout) :
    ∀ (ps : List String) (i : Nat),
      updateLoop subs venv ps i = updateLoop subs2 venv ps i := by
  intro ps
  induction ps with
  | nil => intro i; rfl
  | cons p ps ih =>
    intro i
    simp only [updateLoop, h i, ih (i + 1)]

theorem mainLoop_ne_exited (subs : Nat → SubResult) (venv : String) :
    ∀ (n : Nat) (stdin : List String) (idx : Nat) (fs : List String)
      (files : List (String × List String)) (c : Nat),
      stdin.length ≤ n → (mainLoop subs venv stdin idx fs files).2 ≠ Outcome.exited c := by
  intro n
  induction n with
  | zero =>
    intro stdin idx fs files c h
    have h0 : stdin = [] := List.eq_nil_of_length_eq_zero (Nat.le_zero.mp h)
    subst h0
    simp [mainLoop]
  | succ n ih =>
    intro stdin idx fs files c h
    cases stdin with
    | nil => simp [mainLoop]
    | cons ch rest =>
      rw [mainLoop]
      cases hexc : (menuStep subs venv (pyStrip ch) rest idx fs files).exc with
      | some m => simp [hexc]
      | none =>
        simp only [hexc]
        cases hcont : (menuStep subs venv (pyStrip ch) rest idx fs files).cont with
        | false => simp [hcont]
        | true =>
          simp only [hcont, if_true]
          rcases hml : mainLoop subs venv
              (rest.drop (menuStep subs venv (pyStrip ch) rest idx fs files).used)
              (menuStep subs venv (pyStrip ch) rest idx fs files).next
              (menuStep subs venv (pyStrip ch) rest idx fs files).fs
              (menuStep subs venv (pyStrip ch) rest idx fs files).files with ⟨es, o⟩
          simp only [hml]
          have hle : (rest.drop (menuStep subs venv (pyStrip ch) rest idx fs files).used).length
              ≤ n := by
            simp only [List.length_drop]
            simp only [List.length_cons] at h
            omega
          have := ih _ (menuStep subs venv (pyStrip ch) rest idx fs files).next
            (menuStep subs venv (pyStrip ch) rest idx fs files).fs
            (menuStep subs venv (pyStrip ch) rest idx fs files).files c hle
          rw [hml] at this
          simpa using this

/-- C1 (amended): an explicit non-zero `sys.exit` happens exactly when the
initial connectivity check fails — the menu loop and every later operation
never call `sys.exit`.  (The original claim fails because several error
paths terminate the process abnormally through uncaught exceptions instead
of logging and continuing; see the counterexample.) -/
theorem C1_exit_iff (w : World) :
    (∃ c, c ≠ 0 ∧ (mainM w).2 = Outcome.exited c) ↔ w.internetOk = false := by
  constructor
  · rintro ⟨c, hc, h⟩
    cases hnet : w.internetOk
    · rfl
    · exfalso
      simp only [mainM, hnet, if_true] at h
      rcases hps : pythonSetup w with ⟨es1, e1⟩
      rw [hps] at h
      cases e1 with
      | some m => simp at h
      | none =>
        rcases hsd : w.stdin with _ | ⟨a, rest⟩
        · rw [hsd] at h; simp at h
        · rw [hsd] at h
          simp only [] at h
          rcases hvs : venvSetup w.subs 0 w.fs (if (pyStrip a).isEmpty then "venv" else pyStrip a)
            with ⟨vr, fs1⟩
          rw [hvs] at h
          rcases hve : vr.exc with _ | m
          · rw [hve] at h
            rcases hcf : check_for_updates w.subs vr.next rest
                (if (pyStrip a).isEmpty then "venv" else pyStrip a)
              with ⟨cfes, cfn, cfu, cfe⟩
            rw [hcf] at h
            rcases hcfe : cfe with _ | m
            · subst hcfe
              rcases hml : mainLoop w.subs (if (pyStrip a).isEmpty then "venv" else pyStrip a)
                  (rest.drop cfu) cfn fs1 w.files with ⟨les, o⟩
              rw [hml] at h
              simp at h
              have hx := mainLoop_ne_exited w.subs
                (if (pyStrip a).isEmpty then "venv" else pyStrip a)
                (rest.drop cfu).length (rest.drop cfu) cfn fs1 w.files c le_rfl
              rw [hml] at hx
              exact hx h
            · subst hcfe
              simp at h
          · rw [hve] at h
            simp at h
  · intro h
    refine ⟨1, one_ne_zero, ?_⟩
    simp [mainM, h]

/-- C1 counterexample: the claim that the process terminates with a non-zero
exit status only when the connectivity check fails is false: in world `wC1`
the connectivity check succeeds, but the `python -m venv` subprocess exits 1
and the `check=True` call raises an uncaught `CalledProcessError`, so the
process terminates abnormally (non-zero status) without any connectivity
failure. -/
theorem C1_counterexample :
    ¬ (∀ w : World, exitsNonzero (mainM w).2 = true → w.internetOk = false) :=
  fun h => Bool.noConfusion (h wC1 rfl)

/-- C2: in `install_package`, when the package is not already installed and
the streamed install stdout contains zero lines matching
`Collecting (\S+)`, the final status-label update references the
never-assigned `current_package` and the operation ends in a `NameError`
instead of completing normally. -/
theorem C2_undefined_current_package (subs : Nat → SubResult) (idx : Nat)
    (venv pkg : String) (iset : List String)
    (hset : installedPackagesE (subs idx).stdout = Except.ok iset)
    (hmem : iset.contains (pyLower pkg) = false)
    (hzero : ∀ l ∈ (subs (idx + 1)).stdout, findCollectingS (pyStrip l) = none) :
    (install_package subs idx venv pkg).exc = some nameErrorMsg := by
  simp only [install_package, is_package_installed, hset, Except.map, hmem,
    collectLoop_all_none _ none hzero]

/-- Witness for C2 at a concrete input: empty installed set, install stream
consisting of one `Requirement already satisfied` line. -/
theorem C2_undefined_current_package_witness :
    (install_package subsC2 0 "venv" "foo").exc = some nameErrorMsg :=
  C2_undefined_current_package subsC2 0 "venv" "foo" [] rfl rfl (by decide)

/-- C3: with a manifest parsed to `["a", "b", "c"]` and installed set
`{"b"}`, `install_from_requirements` logs `b` individually as already
installed and issues exactly one install subprocess, whose argument is the
original manifest file path (regardless of the batch subprocess's output);
and when every parsed name is already installed it logs and returns with no
install subprocess at all. -/
theorem C3_batch_install (batch : SubResult) :
    (Event.log "INFO: b is already installed (skipping)" ∈
        (install_from_requirements (c3subs batch) 0 true ["a", "b", "c"] "venv"
          "requirements.txt").events)
    ∧ ((install_from_requirements (c3subs batch) 0 true ["a", "b", "c"] "venv"
          "requirements.txt").events.filter isInstallSub
        = [Event.sub [get_python_executable "venv", "-m", "pip", "install", "-r",
            "requirements.txt"]])
    ∧ ((install_from_requirements c3subsAll 0 true ["a", "b", "c"] "venv"
          "requirements.txt").events
        = [Event.log "Checking for installed packages before installation...",
           Event.sub [get_python_executable "venv", "-m", "pip", "list"],
           Event.log "INFO: a is already installed (skipping)",
           Event.log "INFO: b is already installed (skipping)",
           Event.log "INFO: c is already installed (skipping)",
           Event.log "All required packages are already installed. Nothing to install."]) := by
  have key : install_from_requirements (c3subs batch) 0 true ["a", "b", "c"] "venv"
        "requirements.txt"
      = (match reqLoop batch.stdout with
         | (es, some m) => OpRes.mk (c3head ++ es) 2 (some m)
         | (es, none) => OpRes.mk (c3head ++ es ++
             [Event.log (if batch.rc = 0 then "Installation process complete."
               else "ERROR: Installation failed for some packages. Check the output for details.")])
             2 none) := rfl
  rcases hb : reqLoop batch.stdout with ⟨es, ex⟩
  rw [hb] at key
  have hno : ∀ e ∈ es, isInstallSub e = false := by
    intro e he
    exact reqLoop_no_sub batch.stdout e (by rw [hb]; exact he)
  have hes : List.filter isInstallSub es = [] :=
    List.filter_eq_nil_iff.mpr (fun e he => by simp [hno e he])
  refine ⟨?_, ?_, by decide⟩
  · cases ex with
    | none =>
      have key2 : install_from_requirements (c3subs batch) 0 true ["a", "b", "c"] "venv"
            "requirements.txt"
          = OpRes.mk (c3head ++ es ++
              [Event.log (if batch.rc = 0 then "Installation process complete."
                else "ERROR: Installation failed for some packages. Check the output for details.")])
              2 none := key
      rw [key2]
      exact List.mem_append_left _ (List.mem_append_left _ (by decide))
    | some m =>
      have key2 : install_from_requirements (c3subs batch) 0 true ["a", "b", "c"] "venv"
            "requirements.txt"
          = OpRes.mk (c3head ++ es) 2 (some m) := key
      rw [key2]
      exact List.mem_append_left _ (by decide)
  · cases ex with
    | none =>
      have key2 : install_from_requirements (c3subs batch) 0 true ["a", "b", "c"] "venv"
            "requirements.txt"
          = OpRes.mk (c3head ++ es ++
              [Event.log (if batch.rc = 0 then "Installation process complete."
                else "ERROR: Installation failed for some packages. Check the output for details.")])
              2 none := key
      rw [key2]
      show List.filter isInstallSub (c3head ++ es ++ _) = _
      rw [List.filter_append, List.filter_append, hes]
      have h1 : List.filter isInstallSub c3head
          = [Event.sub ["venv/bin/python", "-m", "pip", "install", "-r", "requirements.txt"]] := by
        decide
      rw [h1]
      rfl
    | some m =>
      have key2 : install_from_requirements (c3subs batch) 0 true ["a", "b", "c"] "venv"
            "requirements.txt"
          = OpRes.mk (c3head ++ es) 2 (some m) := key
      rw [key2]
      show List.filter isInstallSub (c3head ++ es) = _
      rw [List.filter_append, hes]
      have h1 : List.filter isInstallSub c3head
          = [Event.sub ["venv/bin/python", "-m", "pip", "install", "-r", "requirements.txt"]] := by
        decide
      rw [h1]
      rfl

/-- C4: `remove_package`, `remove_all_packages` and `update_packages` never
inspect subprocess exit codes and read-and-discard stderr: two subprocess
supplies that agree on stdout line-for-line (but may differ arbitrarily in
exit codes and stderr) produce identical results — same events, including
the unconditional progress-completion tick and final success log. -/
theorem C4_exit_codes_ignored (venv pkg : String) (pkgs : List String)
    (subs subs2 : Nat → SubResult) (idx : Nat)
    (h : ∀ i, (subs i).stdout = (subs2 i).stdout) :
    remove_package subs idx venv pkg = remove_package subs2 idx venv pkg
    ∧ remove_all_packages subs idx venv = remove_all_packages subs2 idx venv
    ∧ update_packages subs idx pkgs venv = update_packages subs2 idx pkgs venv := by
  refine ⟨?_, ?_, ?_⟩
  · simp only [remove_package, h idx]
  · simp only [remove_all_packages, h idx, removeAllLoop_congr subs subs2 venv h]
  · simp only [update_packages, updateLoop_congr subs subs2 venv h]

/-- Witness for C4: a clean run (exit 0, quiet stderr) and a failing run
(exit 3, stderr noise) with the same stdout are indistinguishable. -/
theorem C4_exit_codes_ignored_witness :
    remove_package subsA 0 "venv" "demo" = remove_package subsB 0 "venv" "demo"
    ∧ remove_all_packages subsA 0 "venv" = remove_all_packages subsB 0 "venv"
    ∧ update_packages subsA 0 ["demo"] "venv" = update_packages subsB 0 ["demo"] "venv" :=
  C4_exit_codes_ignored "venv" "demo" ["demo"] subsA subsB 0 (fun _ => rfl)

/-- C5: whenever the parsed installed set (whose entries are lower-cased by
the parser) contains the lower-casing of the requested name,
`install_package` returns after the skip log: its whole event list is the
`pip list` query plus the skip message — in particular no install subprocess
is issued. -/
theorem C5_case_insensitive_skip (subs : Nat → SubResult) (idx : Nat)
    (venv pkg : String) (iset : List String)
    (hset : installedPackagesE (subs idx).stdout = Except.ok iset)
    (hmem : iset.contains (pyLower pkg) = true) :
    install_package subs idx venv pkg =
      ⟨[Event.sub [get_python_executable venv, "-m", "pip", "list"],
        Event.log ("ERROR: " ++ pkg ++ " (skipped, already installed)")], idx + 1, none⟩ := by
  simp only [install_package, is_package_installed, hset, Except.map, hmem]
  rfl

/-- Witness for C5: installed set `{"numpy", "requests"}` and request
`"NumPy"`. -/
theorem C5_case_insensitive_skip_witness :
    install_package subsC5 0 "venv" "NumPy" =
      ⟨[Event.sub [get_python_executable "venv", "-m", "pip", "list"],
        Event.log "ERROR: NumPy (skipped, already installed)"], 1, none⟩ :=
  C5_case_insensitive_skip subsC5 0 "venv" "NumPy" ["numpy", "requests"] rfl (by decide)

/-- C6: manifest parsing maps `"foo>=1.2.3"` to `"foo"`, drops `"# comment"`
and empty lines, and in general yields at most one name per input line. -/
theorem C6_manifest_parsing :
    parse_requirements ["foo>=1.2.3", "# comment", ""] = ["foo"]
    ∧ ∀ lines : List String, (parse_requirements lines).length ≤ lines.length := by
  refine ⟨by decide, fun lines => ?_⟩
  simp only [parse_requirements, List.length_map]
  exact List.length_filter_le _ _

/-- C7: when `pip list --outdated` prints only the two-line header,
`check_for_updates` logs the up-to-date message and returns — the result is
exactly the listing subprocess plus two logs, no prompt, no upgrade
subprocess, no stdin consumed. -/
theorem C7_up_to_date (subs : Nat → SubResult) (idx : Nat) (stdin : List String)
    (venv : String) (h : (subs idx).stdout.length = 2) :
    check_for_updates subs idx stdin venv =
      ⟨[Event.log "Checking for outdated packages...",
        Event.sub [get_python_executable venv, "-m", "pip", "list", "--outdated"],
        Event.log "All packages are up to date."], idx + 1, 0, none⟩ := by
  simp [check_for_updates, outdatedPackagesE, h]

/-- Witness for C7 at a concrete two-line header output. -/
theorem C7_up_to_date_witness :
    check_for_updates subsC7 0 [] "venv" =
      ⟨[Event.log "Checking for outdated packages...",
        Event.sub [get_python_executable "venv", "-m", "pip", "list", "--outdated"],
        Event.log "All packages are up to date."], 1, 0, none⟩ :=
  C7_up_to_date subsC7 0 [] "venv" rfl

/-- C8: the environment-creation step of `main`.  When no directory named
`E` exists and the creation subprocess succeeds, exactly one subprocess is
invoked and a directory `E` exists afterwards; when a directory named `E`
already exists, no subprocess is invoked at all. -/
theorem C8_venv_creation (subs : Nat → SubResult) (idx : Nat) (fs : List String)
    (E : String) :
    (E ∉ fs → (subs idx).rc = 0 →
      countSub (venvSetup subs idx fs E).1.events = 1
      ∧ E ∈ (venvSetup subs idx fs E).2)
    ∧ (E ∈ fs → countSub (venvSetup subs idx fs E).1.events = 0) := by
  constructor
  · intro h1 h2
    have hv : venvSetup subs idx fs E = (create_virtual_env subs idx E, E :: fs) := by
      simp [venvSetup, h1, h2]
    rw [hv]
    constructor
    · simp only [create_virtual_env, h2, if_pos]
      rfl
    · exact List.mem_cons_self _ _
  · intro h1
    simp [venvSetup, h1, countSub]

/-- Witness for C8: creating `venv` on an empty filesystem, and skipping
creation when `env2` already exists. -/
theorem C8_venv_creation_witness :
    (countSub (venvSetup subsOk 0 [] "venv").1.events = 1
      ∧ "venv" ∈ (venvSetup subsOk 0 [] "venv").2)
    ∧ countSub (venvSetup subsOk 0 ["env2"] "env2").1.events = 0 :=
  ⟨(C8_venv_creation subsOk 0 [] "venv").1 (by decide) rfl,
   (C8_venv_creation subsOk 0 ["env2"] "env2").2 (by decide)⟩

/-- C9: the outdated-list parser inside `check_for_updates` faults with an
`IndexError` whenever the subprocess output has more than two lines and some
line after the two-line header is blank or whitespace-only, whereas the
plain installed-list parser filters blank lines and never faults. -/
theorem C9_blank_line_fault :
    (∀ (subs : Nat → SubResult) (idx : Nat) (stdin : List String) (venv : String),
      (subs idx).stdout.length > 2 →
      (∃ l ∈ (subs idx).stdout.drop 2, l.data.all isWs = true) →
      (check_for_updates subs idx stdin venv).exc = some indexErrorMsg)
    ∧ (∀ lines : List String, (installedPackagesE lines).isOk = true) := by
  constructor
  · intro subs idx stdin venv h1 h2
    have herr := outdatedNamesE_blank _ h2
    simp [check_for_updates, outdatedPackagesE, h1, herr]
  · intro lines
    exact pipListNamesE_isOk _

/-- Witness for C9: a header plus one whitespace-only line faults the
outdated parser; the same shape never faults the installed-list parser. -/
theorem C9_blank_line_fault_witness :
    (check_for_updates subsC9 0 [] "venv").exc = some indexErrorMsg
    ∧ (installedPackagesE ["Package Version", "------- -------", "  "]).isOk = true :=
  ⟨C9_blank_line_fault.1 subsC9 0 [] "venv" (by decide) ⟨"  ", by decide, by decide⟩,
   C9_blank_line_fault.2 _⟩

/-- C10: a manifest line of leading whitespace followed by `#` is not
treated as a comment (the `startswith` test sees the raw line), so it yields
an entry that itself begins with the comment marker. -/
theorem C10_indented_comment :
    parse_requirements ["  # comment"] = ["# comment"]
    ∧ pyStartsWith "# comment" "#" = true := by
  decide

end PENV
